import Mathlib

/- Verification of the parameter-recommendation core of the deepseek_bedrock
   repository: the hardware-to-parameter advisor in scripts/param_detector.py
   (class ResourceDetector) and the live metrics-to-recommendation loop in
   scripts/monitor.py (class DeepSeekMonitor), with the relevant defaults
   from config.py. Python floats are embedded as rationals and byte counts
   as naturals; every arithmetic step of the source is kept exact. -/

namespace DeepSeekBedrock

/-- One entry of `system_resources['neuron_devices']` as built by
`ResourceDetector._detect_system_resources` (param_detector.py lines 64-69):
memory sizes in bytes, `nc_count` the Neuron core count. -/
structure NeuronDevice where
  device_id : String
  memory_total : ℕ
  memory_available : ℕ
  nc_count : ℕ

/-- Total accelerator memory in GiB, the quantity
`sum(d.get('memory_total', 0) for d in self.system_resources['neuron_devices']) / (1024**3)`
shared by the three memory-tier methods of `ResourceDetector`
(param_detector.py lines 102, 114, 126). -/
def totalMemoryGb (devices : List NeuronDevice) : ℚ :=
  (((devices.map (fun d => d.memory_total)).sum : ℕ) : ℚ) / 1024 ^ 3

/-- `ResourceDetector._calculate_tensor_parallel_size` (param_detector.py
lines 91-98). The source branches on `len(self.system_resources['neuron_devices'])`,
the number of detected devices, and its final branch returns 2. -/
def calculateTensorParallelSize (devices : List NeuronDevice) : ℕ :=
  let device_count := devices.length
  if device_count ≥ 8 then 8
  else if device_count ≥ 4 then 4
  else 2

/-- `ResourceDetector._calculate_block_size` (param_detector.py lines 100-110). -/
def calculateBlockSize (devices : List NeuronDevice) : ℕ :=
  let total_memory_gb := totalMemoryGb devices
  if total_memory_gb ≥ 384 then 32
  else if total_memory_gb ≥ 256 then 24
  else if total_memory_gb ≥ 128 then 16
  else 8

/-- `ResourceDetector._calculate_max_num_seqs` (param_detector.py lines 112-122). -/
def calculateMaxNumSeqs (devices : List NeuronDevice) : ℕ :=
  let total_memory_gb := totalMemoryGb devices
  if total_memory_gb ≥ 384 then 16
  else if total_memory_gb ≥ 256 then 12
  else if total_memory_gb ≥ 128 then 8
  else 4

/-- `ResourceDetector._calculate_max_model_len` (param_detector.py lines 124-134). -/
def calculateMaxModelLen (devices : List NeuronDevice) : ℕ :=
  let total_memory_gb := totalMemoryGb devices
  if total_memory_gb ≥ 384 then 8192
  else if total_memory_gb ≥ 256 then 6144
  else if total_memory_gb ≥ 128 then 4096
  else 2048

/-- The recommended-parameter record produced by
`ResourceDetector.get_recommended_params` (param_detector.py lines 136-146). -/
structure ParameterSet where
  tensor_parallel_size : ℕ
  block_size : ℕ
  max_num_seqs : ℕ
  max_model_len : ℕ
  temperature : ℚ
  top_p : ℚ
deriving DecidableEq

/-- `Config.TEMPERATURE` (config.py line 26). -/
def TEMPERATURE : ℚ := 0.6

/-- `Config.TOP_P` (config.py line 27). -/
def TOP_P : ℚ := 0.95

/-- `ResourceDetector.get_recommended_params` (param_detector.py lines
136-146); the `Config.TEMPERATURE` / `Config.TOP_P` class attributes it
reads are passed explicitly. -/
def getRecommendedParams (devices : List NeuronDevice)
    (temperature top_p : ℚ) : ParameterSet :=
  { tensor_parallel_size := calculateTensorParallelSize devices
    block_size := calculateBlockSize devices
    max_num_seqs := calculateMaxNumSeqs devices
    max_model_len := calculateMaxModelLen devices
    temperature := temperature
    top_p := top_p }

/-- Following the spec's words only (for comparison with the source): the
descending-tier first-match lookup, scanning an ordered table of
(lower bound, value) pairs from the largest threshold downward and falling
through to a default. -/
def specTierLookup (table : List (ℕ × ℕ)) (dflt : ℕ) (x : ℕ) : ℕ :=
  match table with
  | [] => dflt
  | (lo, v) :: rest => if x ≥ lo then v else specTierLookup rest dflt x

/-- The single-accelerator snapshot of the spec's end-to-end scenario:
`memory_total` 32 GiB, `core_count` 8. -/
def deviceA : NeuronDevice := ⟨"0", 32 * 1024 ^ 3, 32 * 1024 ^ 3, 8⟩

/-- A larger accelerator with the same core count: `memory_total` 256 GiB. -/
def deviceB : NeuronDevice := ⟨"0", 256 * 1024 ^ 3, 256 * 1024 ^ 3, 8⟩

/-- The mutable counter state of `DeepSeekMonitor` (monitor.py lines 24-27);
timestamps and cumulative counters as rationals. -/
structure MonitorState where
  last_token_count : ℚ
  last_request_count : ℚ
  last_check_time : ℚ

/-- `DeepSeekMonitor.__init__` (monitor.py lines 24-27): both counters start
at 0 and the timestamp at the construction time `time.time()`. -/
def initMonitorState (t : ℚ) : MonitorState := ⟨0, 0, t⟩

/-- The rate-derivation step of `DeepSeekMonitor.get_vllm_metrics`
(monitor.py lines 72-94) restricted to the two cumulative counter series:
reading `generation_tokens_total = tokens` and `request_success_total = reqs`
at time `t1` produces the pair (token_throughput, requests_per_second) and
the updated state. The source computes the plain difference quotient with
no clamping. -/
def vllmStep (st : MonitorState) (t1 tokens reqs : ℚ) :
    (ℚ × ℚ) × MonitorState :=
  let time_diff := t1 - st.last_check_time
  let token_throughput := (tokens - st.last_token_count) / time_diff
  let requests_per_second := (reqs - st.last_request_count) / time_diff
  ((token_throughput, requests_per_second), ⟨tokens, reqs, t1⟩)

/-- The vLLM metrics dict built by `get_vllm_metrics` (monitor.py lines
71-95); a `none` field models an absent key (series not present in the
scrape). `get_parameter_recommendations` reads only `first_token_latency`
and `token_throughput`, each with default 0. -/
structure VllmMetrics where
  first_token_latency : Option ℚ
  token_latency : Option ℚ
  token_throughput : Option ℚ
  requests_per_second : Option ℚ
  cache_usage : Option ℚ

/-- A vLLM metrics dict with no series present. -/
def emptyVllm : VllmMetrics := ⟨none, none, none, none, none⟩

/-- The two entries of the Neuron metrics dict consumed by
`get_parameter_recommendations`; `none` models an absent key (the dict
`{}` returned by the error path of `get_neuron_metrics`). -/
structure NeuronMetrics where
  used_memory : Option ℚ
  total_memory : Option ℚ

/-- A device entry of the parsed `neuron-ls --json` output, with the
defaults of `device.get('memory', 0)` / `device.get('memory_used', 0)`
(monitor.py lines 44-51) already applied; byte counts as rationals since
the source immediately float-divides them. -/
structure NeuronDeviceJson where
  memory : ℚ
  memory_used : ℚ

/-- The success path of `DeepSeekMonitor.get_neuron_metrics` (monitor.py
lines 36-59): the returned dict always carries the `used_memory` and
`total_memory` keys, accumulated in GB over the parsed devices; with zero
parsed devices both keys are present with value 0. -/
def buildNeuronMetrics (devices : List NeuronDeviceJson) : NeuronMetrics :=
  { used_memory := some ((devices.map (fun d => d.memory_used / 1024 ^ 3)).sum)
    total_memory := some ((devices.map (fun d => d.memory / 1024 ^ 3)).sum) }

/-- The failure path of `get_neuron_metrics` (monitor.py lines 60-62):
an empty dict, both keys absent. -/
def emptyNeuronMetrics : NeuronMetrics := ⟨none, none⟩

/-- The mutable `Config` class attributes interpolated into the suggestion
strings of `get_parameter_recommendations`; config.py lines 22-25 give the
defaults. -/
structure MonitorConfig where
  TENSOR_PARALLEL_SIZE : ℕ
  MAX_MODEL_LEN : ℕ
  MAX_NUM_SEQS : ℕ
  BLOCK_SIZE : ℕ

/-- The defaults of config.py lines 22-25. -/
def defaultConfig : MonitorConfig := ⟨2, 2048, 4, 8⟩

/-- The recommendations dict returned by `get_parameter_recommendations`:
each key is present (`some messages`) exactly when its rule fired. -/
structure Recommendations where
  memory_high : Option (List String)
  memory_low : Option (List String)
  latency_high : Option (List String)
  throughput_low : Option (List String)

/-- The rule chain of `DeepSeekMonitor.get_parameter_recommendations`
(monitor.py lines 107-136) applied after `memory_usage` has been computed:
the two memory rules form one if/elif chain, while the latency rule and the
throughput rule are separate if statements over the vLLM metrics dict. -/
def evalRules (memory_usage : ℚ) (vllm : VllmMetrics)
    (cfg : MonitorConfig) : Recommendations :=
  { memory_high :=
      if memory_usage > 0.9 then
        some ["降低 max_model_len (当前: " ++ toString cfg.MAX_MODEL_LEN ++ ")",
              "减少 max_num_seqs (当前: " ++ toString cfg.MAX_NUM_SEQS ++ ")",
              "减小 block_size (当前: " ++ toString cfg.BLOCK_SIZE ++ ")"]
      else none
    memory_low :=
      if memory_usage > 0.9 then none
      else if memory_usage < 0.5 then
        some ["可以增加 max_model_len (当前: " ++ toString cfg.MAX_MODEL_LEN ++ ")",
              "可以增加 max_num_seqs (当前: " ++ toString cfg.MAX_NUM_SEQS ++ ")",
              "可以增大 block_size (当前: " ++ toString cfg.BLOCK_SIZE ++ ")"]
      else none
    latency_high :=
      if vllm.first_token_latency.getD 0 > 1.0 then
        some ["增加 tensor_parallel_size (当前: " ++ toString cfg.TENSOR_PARALLEL_SIZE ++ ")",
              "减少 max_num_seqs (当前: " ++ toString cfg.MAX_NUM_SEQS ++ ")"]
      else none
    throughput_low :=
      if vllm.token_throughput.getD 0 < 10 then
        some ["增加 max_num_seqs (当前: " ++ toString cfg.MAX_NUM_SEQS ++ ")",
              "增大 block_size (当前: " ++ toString cfg.BLOCK_SIZE ++ ")",
              "检查 tensor_parallel_size (当前: " ++ toString cfg.TENSOR_PARALLEL_SIZE ++ ")"]
      else none }

/-- The memory-usage line of `get_parameter_recommendations` (monitor.py
line 105), `neuron_metrics.get('used_memory', 0) / neuron_metrics.get('total_memory', 1)`:
Python raises ZeroDivisionError when the `total_memory` key is present with
value 0, because the default 1 only covers an absent key. -/
def computeMemoryUsage (neuron : NeuronMetrics) : Except String ℚ :=
  let denom := neuron.total_memory.getD 1
  if denom = 0 then Except.error "ZeroDivisionError"
  else Except.ok (neuron.used_memory.getD 0 / denom)

/-- `DeepSeekMonitor.get_parameter_recommendations` (monitor.py lines
100-136): compute the memory usage fraction, then run the rule chain;
a division error escapes the method. -/
def getParameterRecommendations (neuron : NeuronMetrics)
    (vllm : VllmMetrics) (cfg : MonitorConfig) :
    Except String Recommendations :=
  (computeMemoryUsage neuron).map (fun u => evalRules u vllm cfg)

/-- The string `s` references the numeric value `n`: `s` is the
concatenation of some text, the decimal rendering of `n` (the f-string
interpolation of the source), and some trailing text. -/
def mentionsNat (s : String) (n : ℕ) : Prop :=
  ∃ a b : String, s = a ++ toString n ++ b

/-- Total accelerator memory in GiB is monotone in the summed byte count. -/
theorem totalMemoryGb_mono {d1 d2 : List NeuronDevice}
    (h : (d1.map (fun d => d.memory_total)).sum ≤
      (d2.map (fun d => d.memory_total)).sum) :
    totalMemoryGb d1 ≤ totalMemoryGb d2 := by
  unfold totalMemoryGb
  gcongr

/-- The block-size tier function is a non-decreasing step function of the
total accelerator memory. -/
theorem calculateBlockSize_mono {d1 d2 : List NeuronDevice}
    (h : totalMemoryGb d1 ≤ totalMemoryGb d2) :
    calculateBlockSize d1 ≤ calculateBlockSize d2 := by
  simp only [calculateBlockSize]
  split_ifs <;> first | omega | linarith

/-- The max-num-seqs tier function is a non-decreasing step function of the
total accelerator memory. -/
theorem calculateMaxNumSeqs_mono {d1 d2 : List NeuronDevice}
    (h : totalMemoryGb d1 ≤ totalMemoryGb d2) :
    calculateMaxNumSeqs d1 ≤ calculateMaxNumSeqs d2 := by
  simp only [calculateMaxNumSeqs]
  split_ifs <;> first | omega | linarith

/-- The max-model-len tier function is a non-decreasing step function of the
total accelerator memory. -/
theorem calculateMaxModelLen_mono {d1 d2 : List NeuronDevice}
    (h : totalMemoryGb d1 ≤ totalMemoryGb d2) :
    calculateMaxModelLen d1 ≤ calculateMaxModelLen d2 := by
  simp only [calculateMaxModelLen]
  split_ifs <;> first | omega | linarith

/-- Claim C1, counterexample: the snapshot with one accelerator of
core_count 8 (total accelerator core count 8) yields tensor_parallel_size 2,
not the claimed 8; the code branches on the number of devices, not on the
summed core count, and its lowest tier is 2. -/
theorem tps_core_count_counterexample :
    (([deviceA] : List NeuronDevice).map (fun d => d.nc_count)).sum = 8 ∧
    calculateTensorParallelSize [deviceA] = 2 ∧
    calculateTensorParallelSize [deviceA] ≠ 8 :=
  ⟨rfl, rfl, by decide⟩

/-- Claim C1, amended: tensor_parallel_size is a descending-tier first-match
lookup on the NUMBER of detected accelerator devices over the table
8 devices → 8, 4 devices → 4, with default tier 2 (there is no 1 tier); in
particular the snapshot with one accelerator of core_count 8 yields 2. -/
theorem tps_device_count_tiers (devices : List NeuronDevice) :
    calculateTensorParallelSize devices =
      specTierLookup [(8, 8), (4, 4)] 2 devices.length ∧
    calculateTensorParallelSize [deviceA] = 2 :=
  ⟨rfl, rfl⟩

/-- Claim C2, counterexample: on an empty accelerator list the code returns
tensor_parallel_size 2, not the claimed 1. -/
theorem empty_snapshot_tps_counterexample :
    (getRecommendedParams [] TEMPERATURE TOP_P).tensor_parallel_size = 2 ∧
    (getRecommendedParams [] TEMPERATURE TOP_P).tensor_parallel_size ≠ 1 :=
  ⟨rfl, by decide⟩

/-- Claim C2, amended: on an empty accelerator list the computation is total
(never raises) and every memory-derived field takes its lowest tier's value
(block_size 8, max_num_seqs 4, max_model_len 2048), while
tensor_parallel_size equals 2, the code's lowest tier. -/
theorem empty_snapshot_lowest_tier (t p : ℚ) :
    getRecommendedParams [] t p =
      { tensor_parallel_size := 2, block_size := 8, max_num_seqs := 4,
        max_model_len := 2048, temperature := t, top_p := p } := by
  norm_num [getRecommendedParams, calculateTensorParallelSize,
    calculateBlockSize, calculateMaxNumSeqs, calculateMaxModelLen,
    totalMemoryGb]

/-- Claim C5: holding the per-device core counts fixed, a snapshot with at
least as much total accelerator memory never gets a smaller block_size,
max_num_seqs or max_model_len: each memory-tier function is a non-decreasing
step function of total accelerator memory. -/
theorem advisor_memory_tiers_monotone (d1 d2 : List NeuronDevice)
    (hcores : d1.map (fun d => d.nc_count) = d2.map (fun d => d.nc_count))
    (hmem : (d1.map (fun d => d.memory_total)).sum ≤
      (d2.map (fun d => d.memory_total)).sum) :
    calculateBlockSize d1 ≤ calculateBlockSize d2 ∧
    calculateMaxNumSeqs d1 ≤ calculateMaxNumSeqs d2 ∧
    calculateMaxModelLen d1 ≤ calculateMaxModelLen d2 :=
  ⟨calculateBlockSize_mono (totalMemoryGb_mono hmem),
   calculateMaxNumSeqs_mono (totalMemoryGb_mono hmem),
   calculateMaxModelLen_mono (totalMemoryGb_mono hmem)⟩

/-- Claim C5, witness: a 32 GiB and a 256 GiB single-accelerator snapshot
with the same core count satisfy the hypotheses, and the tier values do not
decrease. -/
theorem advisor_memory_tiers_monotone_witness :
    (([deviceA] : List NeuronDevice).map (fun d => d.nc_count) =
      ([deviceB] : List NeuronDevice).map (fun d => d.nc_count)) ∧
    ((([deviceA] : List NeuronDevice).map (fun d => d.memory_total)).sum ≤
      (([deviceB] : List NeuronDevice).map (fun d => d.memory_total)).sum) ∧
    (calculateBlockSize [deviceA] ≤ calculateBlockSize [deviceB] ∧
     calculateMaxNumSeqs [deviceA] ≤ calculateMaxNumSeqs [deviceB] ∧
     calculateMaxModelLen [deviceA] ≤ calculateMaxModelLen [deviceB]) :=
  ⟨rfl, by decide, advisor_memory_tiers_monotone _ _ rfl (by decide)⟩

/-- Claim C6: the advisor is deterministic and pure; two computations of
the recommended ParameterSet on identical snapshot data and identical
temperature/top_p defaults agree field for field. -/
theorem advisor_deterministic (devices : List NeuronDevice) (t p : ℚ) :
    getRecommendedParams devices t p = getRecommendedParams devices t p ∧
    (getRecommendedParams devices t p).tensor_parallel_size =
      (getRecommendedParams devices t p).tensor_parallel_size ∧
    (getRecommendedParams devices t p).block_size =
      (getRecommendedParams devices t p).block_size ∧
    (getRecommendedParams devices t p).max_num_seqs =
      (getRecommendedParams devices t p).max_num_seqs ∧
    (getRecommendedParams devices t p).max_model_len =
      (getRecommendedParams devices t p).max_model_len ∧
    (getRecommendedParams devices t p).temperature =
      (getRecommendedParams devices t p).temperature ∧
    (getRecommendedParams devices t p).top_p =
      (getRecommendedParams devices t p).top_p :=
  ⟨rfl, rfl, rfl, rfl, rfl, rfl, rfl⟩

/-- A concrete scrape with first token latency 2 s and token throughput
5 tokens/s, used to instantiate the rule theorems. -/
def vllmProbe : VllmMetrics :=
  { emptyVllm with first_token_latency := some 2, token_throughput := some 5 }

/-- Claim C3, counterexample: with previous counter 100 at time 0 and a
regressed counter 50 read at time 10 the code derives -5.0, a negative
rate, not the claimed clamped 0.0. -/
theorem throughput_clamp_counterexample :
    (vllmStep ⟨100, 0, 0⟩ 10 50 0).1.1 = -5 ∧
    (vllmStep ⟨100, 0, 0⟩ 10 50 0).1.1 < 0 := by
  constructor <;> norm_num [vllmStep]

/-- Claim C3, amended: the derived throughput is the raw difference
quotient with no clamping: counters 100 at time 0 and 600 at time 10 give
50.0, a regression to 50 gives -5.0, and the negative value is propagated
into the recommendations, where it fires the throughput_low rule. -/
theorem throughput_unclamped (u : ℚ) (cfg : MonitorConfig) :
    (vllmStep ⟨100, 0, 0⟩ 10 600 0).1.1 = 50 ∧
    (vllmStep ⟨100, 0, 0⟩ 10 50 0).1.1 = -5 ∧
    (evalRules u { emptyVllm with token_throughput := some (-5) }
      cfg).throughput_low ≠ none := by
  refine ⟨by norm_num [vllmStep], by norm_num [vllmStep], ?_⟩
  norm_num [evalRules, emptyVllm]
  exact Option.some_ne_none _

/-- Claim C4: the memory rules fire on disjoint ranges: memory_high exactly
above 0.9, memory_low exactly below 0.5, never both; the dead-zone value
0.7 fires neither, and 0.95 fires exactly memory_high. -/
theorem memory_rules_exclusive (u : ℚ) (vllm : VllmMetrics)
    (cfg : MonitorConfig) :
    ((evalRules u vllm cfg).memory_high ≠ none ↔ u > 0.9) ∧
    ((evalRules u vllm cfg).memory_low ≠ none ↔ u < 0.5) ∧
    (¬((evalRules u vllm cfg).memory_high ≠ none ∧
        (evalRules u vllm cfg).memory_low ≠ none)) ∧
    ((evalRules (0.7 : ℚ) vllm cfg).memory_high = none ∧
      (evalRules (0.7 : ℚ) vllm cfg).memory_low = none) ∧
    ((evalRules (0.95 : ℚ) vllm cfg).memory_high ≠ none ∧
      (evalRules (0.95 : ℚ) vllm cfg).memory_low = none) := by
  refine ⟨?_, ?_, ?_, ?_, ?_⟩
  · simp only [evalRules]
    split_ifs with h <;> simp [h]
  · simp only [evalRules]
    split_ifs with h1 h2
    · simp only [ne_eq, not_true_eq_false, false_iff, not_lt]
      linarith
    · simp [h2]
    · simp [h2]
  · simp only [evalRules]
    split_ifs <;> simp
  · norm_num [evalRules]
  · refine ⟨?_, by norm_num [evalRules]⟩
    norm_num [evalRules]
    exact Option.some_ne_none _

/-- Claim C7, counterexample: from the freshly initialized state (counters
0, timestamp 0) the first observation of counter value 100 at time 10
derives rate 10, not the claimed 0. -/
theorem first_observation_counterexample :
    (vllmStep (initMonitorState 0) 10 100 7).1.1 = 10 ∧
    (vllmStep (initMonitorState 0) 10 100 7).1.1 ≠ 0 := by
  constructor <;> norm_num [vllmStep, initMonitorState]

/-- Claim C7, amended: the state is initialized with both counters 0 and
the timestamp of construction, so the first observation derives
counter / elapsed-time for both rates, an initialization artifact rather
than 0: counters (100, 7) read 10 seconds after start give (10, 0.7). -/
theorem first_observation_artifact (t0 t1 tokens reqs : ℚ) :
    (vllmStep (initMonitorState t0) t1 tokens reqs).1 =
      (tokens / (t1 - t0), reqs / (t1 - t0)) ∧
    (vllmStep (initMonitorState 0) 10 100 7).1 = (10, 7 / 10) := by
  constructor
  · simp [vllmStep, initMonitorState]
  · norm_num [vllmStep, initMonitorState]

/-- Claim C8: the success path of the hardware probe with zero parsed
devices hands `get_parameter_recommendations` a dict whose total_memory
key holds 0, and the memory-usage line then divides zero by zero: the
evaluation raises ZeroDivisionError instead of returning a recommendation
mapping. -/
theorem zero_devices_division_fatal (vllm : VllmMetrics)
    (cfg : MonitorConfig) :
    buildNeuronMetrics [] = ⟨some 0, some 0⟩ ∧
    getParameterRecommendations (buildNeuronMetrics []) vllm cfg =
      Except.error "ZeroDivisionError" :=
  ⟨rfl, rfl⟩

/-- Claim C9: the latency and throughput rules are independent of the
memory usage fraction and of each other, latency_high fires exactly when
the first-token latency exceeds 1.0, throughput_low exactly when the token
throughput is below 10, and every emitted suggestion string references the
current value of a parameter being flagged by its rule. -/
theorem latency_throughput_independent (u u' : ℚ) (vllm : VllmMetrics)
    (cfg : MonitorConfig) :
    ((evalRules u vllm cfg).latency_high ≠ none ↔
      vllm.first_token_latency.getD 0 > 1.0) ∧
    ((evalRules u vllm cfg).throughput_low ≠ none ↔
      vllm.token_throughput.getD 0 < 10) ∧
    (evalRules u vllm cfg).latency_high =
      (evalRules u' vllm cfg).latency_high ∧
    (evalRules u vllm cfg).throughput_low =
      (evalRules u' vllm cfg).throughput_low ∧
    (∀ m ∈ (evalRules u vllm cfg).latency_high.getD [],
      mentionsNat m cfg.TENSOR_PARALLEL_SIZE ∨ mentionsNat m cfg.MAX_NUM_SEQS) ∧
    (∀ m ∈ (evalRules u vllm cfg).throughput_low.getD [],
      mentionsNat m cfg.MAX_NUM_SEQS ∨ mentionsNat m cfg.BLOCK_SIZE ∨
        mentionsNat m cfg.TENSOR_PARALLEL_SIZE) := by
  refine ⟨?_, ?_, rfl, rfl, ?_, ?_⟩
  · simp only [evalRules]
    split_ifs with h <;> simp [h]
  · simp only [evalRules]
    split_ifs with h <;> simp [h]
  · simp only [evalRules]
    split_ifs with h
    · intro m hm
      rcases List.mem_cons.mp hm with rfl | hm
      · exact Or.inl ⟨"增加 tensor_parallel_size (当前: ", ")", rfl⟩
      rcases List.mem_cons.mp hm with rfl | hm
      · exact Or.inr ⟨"减少 max_num_seqs (当前: ", ")", rfl⟩
      · simp at hm
    · intro m hm
      simp at hm
  · simp only [evalRules]
    split_ifs with h
    · intro m hm
      rcases List.mem_cons.mp hm with rfl | hm
      · exact Or.inl ⟨"增加 max_num_seqs (当前: ", ")", rfl⟩
      rcases List.mem_cons.mp hm with rfl | hm
      · exact Or.inr (Or.inl ⟨"增大 block_size (当前: ", ")", rfl⟩)
      rcases List.mem_cons.mp hm with rfl | hm
      · exact Or.inr (Or.inr ⟨"检查 tensor_parallel_size (当前: ", ")", rfl⟩)
      · simp at hm
    · intro m hm
      simp at hm

/-- Claim C9, witness: a scrape with latency 2 s fires latency_high under
the default configuration, and its first suggestion string references the
current tensor_parallel_size value 2. -/
theorem latency_throughput_independent_witness :
    ((evalRules 0 vllmProbe defaultConfig).latency_high ≠ none) ∧
    (mentionsNat ("增加 tensor_parallel_size (当前: " ++
        toString defaultConfig.TENSOR_PARALLEL_SIZE ++ ")")
        defaultConfig.TENSOR_PARALLEL_SIZE ∨
      mentionsNat ("增加 tensor_parallel_size (当前: " ++
        toString defaultConfig.TENSOR_PARALLEL_SIZE ++ ")")
        defaultConfig.MAX_NUM_SEQS) := by
  constructor
  · exact ((latency_throughput_independent 0 1 vllmProbe defaultConfig).1).mpr
      (by norm_num [vllmProbe, emptyVllm])
  · refine (latency_throughput_independent 0 1 vllmProbe
      defaultConfig).2.2.2.2.1 _ ?_
    norm_num [evalRules, vllmProbe, emptyVllm]

/-- Claim C10: the probe failure path hands over an empty dict, both keys
absent, so the computed memory usage fraction is 0/1 = 0 and memory_low
fires with the three raise suggestions, while memory_high stays silent. -/
theorem probe_failure_memory_low (vllm : VllmMetrics) (cfg : MonitorConfig) :
    getParameterRecommendations emptyNeuronMetrics vllm cfg =
      Except.ok (evalRules 0 vllm cfg) ∧
    (evalRules 0 vllm cfg).memory_low =
      some ["可以增加 max_model_len (当前: " ++ toString cfg.MAX_MODEL_LEN ++ ")",
            "可以增加 max_num_seqs (当前: " ++ toString cfg.MAX_NUM_SEQS ++ ")",
            "可以增大 block_size (当前: " ++ toString cfg.BLOCK_SIZE ++ ")"] ∧
    (evalRules 0 vllm cfg).memory_high = none := by
  refine ⟨?_, ?_, ?_⟩
  · norm_num [getParameterRecommendations, computeMemoryUsage,
      emptyNeuronMetrics, Except.map]
  · norm_num [evalRules]
  · norm_num [evalRules]

end DeepSeekBedrock
